import Mathlib

/-!
Shallow embedding of the `gddns` dynamic-DNS reconciler (`src/main.go`).
The post-setup run of `main` is modelled as a pure function over a
`Provider` oracle that supplies the results of the external calls
(Cloudflare list/create/update, the state-file write).  Every external
call the code issues is recorded in an effect trace, so the theorems can
speak about which calls are made, with which parameters, and in which
order.
-/

namespace Gddns

/-- The persisted state file (`CfgFile` in main.go): the four JSON
fields `domain`, `cname`, `zone_id`, `record_id`. -/
structure CfgFile where
  domain : String
  cname : String
  zoneID : String
  recordID : String
  deriving DecidableEq, Repr

/-- The runtime-only values (`Config.Env` in main.go): credentials from
the environment and the resolved public IP. -/
structure Env where
  cfEmail : String
  cfApiKey : String
  sysIP : String
  deriving DecidableEq, Repr

/-- `Config` in main.go: the embedded state file plus the runtime env. -/
structure Config where
  file : CfgFile
  env : Env
  deriving DecidableEq, Repr

/-- The `Data` map sent with the SRV create in `createRecords`. -/
structure SrvData where
  service : String
  proto : String
  name : String
  priority : Int
  weight : Int
  port : Int
  target : String
  deriving DecidableEq, Repr

/-- `cloudflare.CreateDNSRecordParams` as used by `createRecords`. -/
structure CreateParams where
  type : String
  name : String
  content : String
  ttl : Int
  proxied : Option Bool
  comment : String
  data : Option SrvData
  deriving DecidableEq, Repr

/-- `cloudflare.UpdateDNSRecordParams` as used by `updateRecord`. -/
structure UpdateParams where
  id : String
  type : String
  name : String
  content : String
  ttl : Int
  comment : Option String
  proxied : Option Bool
  deriving DecidableEq, Repr

/-- A DNS record as held by the provider; only the fields the
list-by-name conflict check filters on are needed. -/
structure DNSRecord where
  id : String
  type : String
  name : String
  deriving DecidableEq, Repr

/-- One externally visible call issued by a run: a provider API call or
a state-file write (`os.WriteFile` in `saveConfig`, carrying the
serialized key/value pairs). -/
inductive Effect where
  | listDNSRecords (zoneID : String) (recType : String) (name : String)
  | createDNSRecord (zoneID : String) (p : CreateParams)
  | updateDNSRecord (zoneID : String) (p : UpdateParams)
  | stateSave (payload : List (String × String))
  deriving DecidableEq, Repr

/-- Oracle for the results of the external calls of one run.
`records` is the provider's record set in the zone: modelled from the
Cloudflare API contract, `ListDNSRecords` with a `Type`/`Name` filter
returns the records matching both, and `r.Count` is their number.
`createResA`/`createResSRV` are the results of the first and second
create call (each returning the new record's ID), `updateRes` the
update result, `saveErr` the `os.WriteFile` error if any. -/
structure Provider where
  records : List DNSRecord
  listErr : Option String
  createResA : Except String String
  createResSRV : Except String String
  updateRes : Except String Unit
  saveErr : Option String
  deriving Repr

/-- The number of records the provider reports for a list filtered by
type and name (`r.Count` in `findRecord`). -/
def listMatchCount (records : List DNSRecord) (recType : String) (name : String) : Nat :=
  (records.filter fun r => r.type == recType && r.name == name).length

/-- The update parameters built in `updateRecord` (main.go:92-100). -/
def updateRecordParams (config : Config) : UpdateParams :=
  { id := config.file.recordID
    type := "A"
    name := config.file.cname
    content := config.env.sysIP
    ttl := 120
    comment := some "Automatically set by gddns"
    proxied := some false }

/-- `updateRecord` (main.go:90-108): one update call, propagating the
provider error. -/
def updateRecord (api : Provider) (config : Config) :
    List Effect × Except String Unit :=
  ([Effect.updateDNSRecord config.file.zoneID (updateRecordParams config)],
   api.updateRes)

/-- `findRecord` (main.go:110-125): one list call filtered to type "A"
and the configured label; error "record already exists" when the match
count is non-zero. -/
def findRecord (api : Provider) (config : Config) :
    List Effect × Except String Unit :=
  let trace := [Effect.listDNSRecords config.file.zoneID "A" config.file.cname]
  match api.listErr with
  | some e => (trace, Except.error e)
  | none =>
    if listMatchCount api.records "A" config.file.cname != 0 then
      (trace, Except.error "record already exists")
    else
      (trace, Except.ok ())

/-- The A-record create parameters built in `createRecords`
(main.go:130-137); `now` stands for `time.Now().String()`. -/
def aCreateParams (config : Config) (now : String) : CreateParams :=
  { type := "A"
    name := config.file.cname
    content := config.env.sysIP
    ttl := 300
    proxied := some false
    comment := "Automatically set by gddns at " ++ now
    data := none }

/-- The SRV-record create parameters built in `createRecords`
(main.go:142-157); the target is label and domain joined with ".". -/
def srvCreateParams (config : Config) (now : String) : CreateParams :=
  let cnameFull := String.intercalate "." [config.file.cname, config.file.domain]
  { type := "SRV"
    name := config.file.cname
    content := ""
    ttl := 900
    proxied := some false
    comment := "Automatically set by gddns at " ++ now
    data := some
      { service := "_minecraft"
        proto := "_tcp"
        name := cnameFull
        priority := 0
        weight := 5
        port := 25565
        target := cnameFull } }

/-- `createRecords` (main.go:127-166): create the A record; on success
create the SRV record; only after both succeed set `config.RecordID`
from the A create's result. -/
def createRecords (api : Provider) (config : Config) (now : String) :
    List Effect × Except String Unit × Config :=
  let aCall := Effect.createDNSRecord config.file.zoneID (aCreateParams config now)
  match api.createResA with
  | Except.error e => ([aCall], Except.error e, config)
  | Except.ok recID =>
    let srvCall := Effect.createDNSRecord config.file.zoneID (srvCreateParams config now)
    match api.createResSRV with
    | Except.error e => ([aCall, srvCall], Except.error e, config)
    | Except.ok _ =>
      ([aCall, srvCall], Except.ok (),
       { config with file := { config.file with recordID := recID } })

/-- The serialized form of the state file written by `saveConfig`
(`json.MarshalIndent` of `CfgFile`): exactly the four tagged fields. -/
def serializeCfgFile (c : CfgFile) : List (String × String) :=
  [("domain", c.domain), ("cname", c.cname),
   ("zone_id", c.zoneID), ("record_id", c.recordID)]

/-- `saveConfig` (main.go:75-88): rebuild a `CfgFile` from the four
persisted fields of the config and write its serialization. -/
def saveConfig (api : Provider) (config : Config) :
    List Effect × Except String Unit :=
  let cfgdata : CfgFile :=
    { domain := config.file.domain
      cname := config.file.cname
      zoneID := config.file.zoneID
      recordID := config.file.recordID }
  ([Effect.stateSave (serializeCfgFile cfgdata)],
   match api.saveErr with
   | some e => Except.error e
   | none => Except.ok ())

deriving instance DecidableEq for Except

/-- The fatal error classes of `main` (the `log.Fatalf` sites after
setup), tagged with the underlying error text. -/
inductive RunError where
  | updateError (e : String)
  | verifyError (e : String)
  | createError (e : String)
  | saveError (e : String)
  deriving DecidableEq, Repr

/-- The observable result of one run: the trace of external calls, the
outcome (ok or the fatal error), and the in-memory config at exit. -/
structure RunResult where
  trace : List Effect
  outcome : Except RunError Unit
  finalConfig : Config
  deriving DecidableEq, Repr

/-- `main` after `setup` (main.go:204-233): update when `RecordID` is
non-empty; otherwise conflict-check, create both records, save. -/
def mainRun (api : Provider) (config : Config) (now : String) : RunResult :=
  if config.file.recordID != "" then
    let res := updateRecord api config
    { trace := res.1
      outcome := match res.2 with
        | Except.error e => Except.error (RunError.updateError e)
        | Except.ok _ => Except.ok ()
      finalConfig := config }
  else
    let found := findRecord api config
    match found.2 with
    | Except.error e =>
      { trace := found.1
        outcome := Except.error (RunError.verifyError e)
        finalConfig := config }
    | Except.ok _ =>
      let created := createRecords api config now
      match created.2.1 with
      | Except.error e =>
        { trace := found.1 ++ created.1
          outcome := Except.error (RunError.createError e)
          finalConfig := created.2.2 }
      | Except.ok _ =>
        let saved := saveConfig api created.2.2
        { trace := found.1 ++ created.1 ++ saved.1
          outcome := match saved.2 with
            | Except.error e => Except.error (RunError.saveError e)
            | Except.ok _ => Except.ok ()
          finalConfig := created.2.2 }

/-- Whether an effect is a create call. -/
def Effect.isCreate : Effect → Bool
  | Effect.createDNSRecord _ _ => true
  | _ => false

/-- Whether an effect is an update call. -/
def Effect.isUpdate : Effect → Bool
  | Effect.updateDNSRecord _ _ => true
  | _ => false

/-- Whether an effect is a list (conflict-check) call. -/
def Effect.isListCall : Effect → Bool
  | Effect.listDNSRecords _ _ _ => true
  | _ => false

/-- Whether an effect is a state-store write. -/
def Effect.isSave : Effect → Bool
  | Effect.stateSave _ => true
  | _ => false

/-- The create calls of a trace, in order. -/
def createCalls (t : List Effect) : List Effect := t.filter Effect.isCreate

/-- The update calls of a trace, in order. -/
def updateCalls (t : List Effect) : List Effect := t.filter Effect.isUpdate

/-- The list (conflict-check) calls of a trace, in order. -/
def listCalls (t : List Effect) : List Effect := t.filter Effect.isListCall

/-- The state-store writes of a trace, in order. -/
def saveCalls (t : List Effect) : List Effect := t.filter Effect.isSave

/-- `getPublicIP` (main.go:37-46), over the result of `http.Get`:
the response carries the status code, the bytes `io.ReadAll` produced,
and the read error if any.  The Go function returns the pair
`(string(ip), err)`; an error on the `http.Get` itself returns `""`
with that error.  The status code is never consulted. -/
structure HttpResponse where
  statusCode : Nat
  body : String
  readErr : Option String
  deriving DecidableEq, Repr

/-- `getPublicIP` as a function of the transport result. -/
def getPublicIP (getResult : Except String HttpResponse) :
    String × Option String :=
  match getResult with
  | Except.error e => ("", some e)
  | Except.ok resp => (resp.body, resp.readErr)

/-- A concrete Managed-state config, for concrete instantiations. -/
def cfgManaged : Config :=
  { file := { domain := "example.com", cname := "home", zoneID := "z1",
              recordID := "rec123" }
    env := { cfEmail := "e@x", cfApiKey := "k", sysIP := "198.51.100.2" } }

/-- The concrete Unmanaged-state config of the spec's create scenario. -/
def cfgUnmanaged : Config :=
  { file := { domain := "example.com", cname := "home", zoneID := "z1",
              recordID := "" }
    env := { cfEmail := "e@x", cfApiKey := "k", sysIP := "203.0.113.7" } }

/-- An oracle where every external call succeeds. -/
def apiAllOk : Provider :=
  { records := []
    listErr := none
    createResA := Except.ok "newA1"
    createResSRV := Except.ok "newSRV1"
    updateRes := Except.ok ()
    saveErr := none }

/-- An oracle where the SRV create fails after the A create succeeded. -/
def apiSrvFails : Provider :=
  { apiAllOk with createResSRV := Except.error "srv boom" }

/-- An oracle whose zone already holds an A record named "home". -/
def apiConflict : Provider :=
  { apiAllOk with records := [{ id := "ext1", type := "A", name := "home" }] }

/-- An oracle whose zone holds only an SRV record named "home". -/
def apiSrvOnly : Provider :=
  { apiAllOk with records := [{ id := "ext2", type := "SRV", name := "home" }] }

/-- An alternative runtime env differing in every field, for the
credential-independence instantiation. -/
def envAlt : Env :=
  { cfEmail := "other@x", cfApiKey := "k2", sysIP := "198.51.100.9" }

/-- The concrete Unmanaged config with the alternative env. -/
def cfgUnmanagedAltEnv : Config :=
  { cfgUnmanaged with env := envAlt }

/-- C1: for every configuration in the Managed state (recordID
non-empty), one run of the reconciler issues exactly one provider
update call for the A record with TTL 120 and proxied=false, and issues
no create calls, no conflict check (list), and no state-store write. -/
theorem managed_run_exactly_one_update (api : Provider) (config : Config)
    (now : String) (h : config.file.recordID ≠ "") :
    (mainRun api config now).trace =
      [Effect.updateDNSRecord config.file.zoneID
        { id := config.file.recordID, type := "A", name := config.file.cname,
          content := config.env.sysIP, ttl := 120,
          comment := some "Automatically set by gddns",
          proxied := some false }] ∧
    createCalls (mainRun api config now).trace = [] ∧
    listCalls (mainRun api config now).trace = [] ∧
    saveCalls (mainRun api config now).trace = [] := by
  have h' : (config.file.recordID != "") = true := by
    simpa [bne_iff_ne] using h
  simp [mainRun, h', updateRecord, updateRecordParams, createCalls, listCalls,
    saveCalls, List.filter, Effect.isCreate, Effect.isListCall, Effect.isSave]

/-- Witness for C1 at the concrete Managed config. -/
theorem managed_run_exactly_one_update_witness :
    (mainRun apiAllOk cfgManaged "T").trace =
      [Effect.updateDNSRecord cfgManaged.file.zoneID
        { id := cfgManaged.file.recordID, type := "A",
          name := cfgManaged.file.cname, content := cfgManaged.env.sysIP,
          ttl := 120, comment := some "Automatically set by gddns",
          proxied := some false }] ∧
    createCalls (mainRun apiAllOk cfgManaged "T").trace = [] ∧
    listCalls (mainRun apiAllOk cfgManaged "T").trace = [] ∧
    saveCalls (mainRun apiAllOk cfgManaged "T").trace = [] :=
  managed_run_exactly_one_update apiAllOk cfgManaged "T" (by decide)

/-- C2: for every Unmanaged configuration whose conflict check reports
zero matches, the create calls of the run are exactly the A create
followed by the SRV create when the A create succeeded, and exactly the
A create alone when it failed, so the SRV create is issued only after a
successful A create. -/
theorem unmanaged_create_order (api : Provider) (config : Config)
    (now : String) (h0 : config.file.recordID = "")
    (hle : api.listErr = none)
    (hm : listMatchCount api.records "A" config.file.cname = 0) :
    ((∀ recID, api.createResA = Except.ok recID →
      createCalls (mainRun api config now).trace =
        [Effect.createDNSRecord config.file.zoneID (aCreateParams config now),
         Effect.createDNSRecord config.file.zoneID (srvCreateParams config now)]) ∧
    (∀ e, api.createResA = Except.error e →
      createCalls (mainRun api config now).trace =
        [Effect.createDNSRecord config.file.zoneID (aCreateParams config now)]) ∧
    (aCreateParams config now).type = "A" ∧
    (srvCreateParams config now).type = "SRV") := by
  have h0' : (config.file.recordID != "") = false := by simp [h0]
  refine ⟨?_, ?_, rfl, rfl⟩ <;> intro x hx <;>
    cases hsrv : api.createResSRV <;>
    simp [mainRun, h0', findRecord, hle, hm, createRecords, hx, hsrv,
      saveConfig, createCalls, List.filter, Effect.isCreate]

/-- Witness for C2 at the concrete Unmanaged config. -/
theorem unmanaged_create_order_witness :
    createCalls (mainRun apiAllOk cfgUnmanaged "T").trace =
      [Effect.createDNSRecord cfgUnmanaged.file.zoneID
         (aCreateParams cfgUnmanaged "T"),
       Effect.createDNSRecord cfgUnmanaged.file.zoneID
         (srvCreateParams cfgUnmanaged "T")] :=
  (unmanaged_create_order apiAllOk cfgUnmanaged "T" (by decide) rfl
    (by decide)).1 "newA1" rfl

/-- C3: for every Unmanaged configuration whose conflict check reports
a non-zero match count, the run issues no create call, performs no
state-store write, leaves the config unchanged, and ends with the
"record already exists" error. -/
theorem unmanaged_conflict_aborts (api : Provider) (config : Config)
    (now : String) (h0 : config.file.recordID = "")
    (hle : api.listErr = none)
    (hm : listMatchCount api.records "A" config.file.cname ≠ 0) :
    (mainRun api config now).outcome =
      Except.error (RunError.verifyError "record already exists") ∧
    createCalls (mainRun api config now).trace = [] ∧
    saveCalls (mainRun api config now).trace = [] ∧
    (mainRun api config now).finalConfig = config := by
  have h0' : (config.file.recordID != "") = false := by simp [h0]
  have hm' : (listMatchCount api.records "A" config.file.cname != 0) = true := by
    simpa [bne_iff_ne] using hm
  simp [mainRun, h0', findRecord, hle, hm', createCalls, saveCalls,
    List.filter, Effect.isCreate, Effect.isSave]

/-- Witness for C3 at the concrete conflicting provider state. -/
theorem unmanaged_conflict_aborts_witness :
    (mainRun apiConflict cfgUnmanaged "T").outcome =
      Except.error (RunError.verifyError "record already exists") ∧
    createCalls (mainRun apiConflict cfgUnmanaged "T").trace = [] ∧
    saveCalls (mainRun apiConflict cfgUnmanaged "T").trace = [] ∧
    (mainRun apiConflict cfgUnmanaged "T").finalConfig = cfgUnmanaged :=
  unmanaged_conflict_aborts apiConflict cfgUnmanaged "T" (by decide) rfl
    (by decide)

/-- C4: for every Unmanaged run where the A create succeeds and the SRV
create fails, the run ends with the create error, the in-memory config
is unchanged (recordID still empty), and no state-store write occurs. -/
theorem partial_create_no_save (api : Provider) (config : Config)
    (now : String) (recID e : String)
    (h0 : config.file.recordID = "")
    (hle : api.listErr = none)
    (hm : listMatchCount api.records "A" config.file.cname = 0)
    (ha : api.createResA = Except.ok recID)
    (hs : api.createResSRV = Except.error e) :
    (mainRun api config now).outcome =
      Except.error (RunError.createError e) ∧
    (mainRun api config now).finalConfig = config ∧
    (mainRun api config now).finalConfig.file.recordID = "" ∧
    saveCalls (mainRun api config now).trace = [] := by
  have h0' : (config.file.recordID != "") = false := by simp [h0]
  simp [mainRun, h0', findRecord, hle, hm, createRecords, ha, hs, h0,
    saveCalls, List.filter, Effect.isSave]

/-- Witness for C4 at the concrete Unmanaged config with a failing SRV
create. -/
theorem partial_create_no_save_witness :
    (mainRun apiSrvFails cfgUnmanaged "T").outcome =
      Except.error (RunError.createError "srv boom") ∧
    (mainRun apiSrvFails cfgUnmanaged "T").finalConfig = cfgUnmanaged ∧
    (mainRun apiSrvFails cfgUnmanaged "T").finalConfig.file.recordID = "" ∧
    saveCalls (mainRun apiSrvFails cfgUnmanaged "T").trace = [] :=
  partial_create_no_save apiSrvFails cfgUnmanaged "T" "newA1" "srv boom"
    (by decide) rfl (by decide) rfl rfl

/-- C5: for every Unmanaged run where both creates succeed, recordID is
set to the ID returned by the A create, exactly one state-store write
occurs and it carries exactly the four persisted fields with the new
recordID, and a failed save is reported as fatal while a successful one
ends the run ok. -/
theorem full_success_sets_id_and_saves (api : Provider) (config : Config)
    (now : String) (recID srvID : String)
    (h0 : config.file.recordID = "")
    (hle : api.listErr = none)
    (hm : listMatchCount api.records "A" config.file.cname = 0)
    (ha : api.createResA = Except.ok recID)
    (hs : api.createResSRV = Except.ok srvID) :
    (mainRun api config now).finalConfig.file.recordID = recID ∧
    saveCalls (mainRun api config now).trace =
      [Effect.stateSave (serializeCfgFile
        { domain := config.file.domain, cname := config.file.cname,
          zoneID := config.file.zoneID, recordID := recID })] ∧
    (∀ e, api.saveErr = some e →
      (mainRun api config now).outcome =
        Except.error (RunError.saveError e)) ∧
    (api.saveErr = none → (mainRun api config now).outcome = Except.ok ()) := by
  have h0' : (config.file.recordID != "") = false := by simp [h0]
  refine ⟨?_, ?_, ?_, ?_⟩
  · simp [mainRun, h0', findRecord, hle, hm, createRecords, ha, hs,
      saveConfig, saveCalls, List.filter, Effect.isSave]
  · simp [mainRun, h0', findRecord, hle, hm, createRecords, ha, hs,
      saveConfig, saveCalls, List.filter, Effect.isSave]
  · intro e he
    simp [mainRun, h0', findRecord, hle, hm, createRecords, ha, hs,
      saveConfig, he]
  · intro he
    simp [mainRun, h0', findRecord, hle, hm, createRecords, ha, hs,
      saveConfig, he]

/-- Witness for C5 at the concrete Unmanaged config with both creates
succeeding. -/
theorem full_success_sets_id_and_saves_witness :
    (mainRun apiAllOk cfgUnmanaged "T").finalConfig.file.recordID = "newA1" ∧
    saveCalls (mainRun apiAllOk cfgUnmanaged "T").trace =
      [Effect.stateSave (serializeCfgFile
        { domain := cfgUnmanaged.file.domain, cname := cfgUnmanaged.file.cname,
          zoneID := cfgUnmanaged.file.zoneID, recordID := "newA1" })] ∧
    (mainRun apiAllOk cfgUnmanaged "T").outcome = Except.ok () := by
  have h := full_success_sets_id_and_saves apiAllOk cfgUnmanaged "T"
    "newA1" "newSRV1" (by decide) rfl (by decide) rfl rfl
  exact ⟨h.1, h.2.1, h.2.2.2 rfl⟩

/-- C6: the Managed/Unmanaged transition is one-way and mutually
exclusive: with a non-empty recordID the run leaves the config
unchanged and never issues a create; with an empty recordID it never
issues an update; and no run turns a non-empty recordID into an empty
one (an empty final recordID implies it started empty). -/
theorem transition_one_way (api : Provider) (config : Config) (now : String) :
    (config.file.recordID ≠ "" →
      (mainRun api config now).finalConfig = config ∧
      createCalls (mainRun api config now).trace = []) ∧
    (config.file.recordID = "" →
      updateCalls (mainRun api config now).trace = []) ∧
    ((mainRun api config now).finalConfig.file.recordID = "" →
      config.file.recordID = "") := by
  by_cases h0 : config.file.recordID = ""
  · have h0' : (config.file.recordID != "") = false := by simp [h0]
    refine ⟨fun h => absurd h0 h, fun _ => ?_, fun _ => h0⟩
    by_cases hm : listMatchCount api.records "A" config.file.cname = 0 <;>
      cases hle : api.listErr <;>
      cases ha : api.createResA <;>
      cases hs : api.createResSRV <;>
      simp [mainRun, h0', findRecord, hle, hm, bne_iff_ne, createRecords,
        ha, hs, saveConfig, updateCalls, List.filter, Effect.isUpdate]
  · have h0' : (config.file.recordID != "") = true := by
      simpa [bne_iff_ne] using h0
    have hfin : (mainRun api config now).finalConfig = config := by
      simp [mainRun, h0', updateRecord]
    refine ⟨fun _ => ⟨hfin, ?_⟩, fun h => absurd h h0, fun h => ?_⟩
    · simp [mainRun, h0', updateRecord, createCalls, List.filter,
        Effect.isCreate]
    · rw [hfin] at h
      exact absurd h h0

/-- Witness for C6 at the concrete Managed and Unmanaged configs. -/
theorem transition_one_way_witness :
    (mainRun apiAllOk cfgManaged "T").finalConfig = cfgManaged ∧
    createCalls (mainRun apiAllOk cfgManaged "T").trace = [] ∧
    updateCalls (mainRun apiAllOk cfgUnmanaged "T").trace = [] := by
  have h1 := transition_one_way apiAllOk cfgManaged "T"
  have h2 := transition_one_way apiAllOk cfgUnmanaged "T"
  exact ⟨(h1.1 (by decide)).1, (h1.1 (by decide)).2, h2.2.1 (by decide)⟩

/-- C7: the spec's concrete create scenario: Unmanaged state
{example.com, home, z1, ""} with IP 203.0.113.7 and no matching record
yields exactly list, A create (name "home", content "203.0.113.7",
TTL 300, proxied false), SRV create (target "home.example.com",
port 25565, priority 0, weight 5, TTL 900), and a state write whose
record_id is the A create's returned ID. -/
theorem scenario_unmanaged_create_concrete :
    (mainRun apiAllOk cfgUnmanaged "T").trace =
      [Effect.listDNSRecords "z1" "A" "home",
       Effect.createDNSRecord "z1"
         { type := "A", name := "home", content := "203.0.113.7", ttl := 300,
           proxied := some false,
           comment := "Automatically set by gddns at T", data := none },
       Effect.createDNSRecord "z1"
         { type := "SRV", name := "home", content := "", ttl := 900,
           proxied := some false,
           comment := "Automatically set by gddns at T",
           data := some
             { service := "_minecraft", proto := "_tcp",
               name := "home.example.com", priority := 0, weight := 5,
               port := 25565, target := "home.example.com" } },
       Effect.stateSave
         [("domain", "example.com"), ("cname", "home"),
          ("zone_id", "z1"), ("record_id", "newA1")]] ∧
    (mainRun apiAllOk cfgUnmanaged "T").outcome = Except.ok () ∧
    (mainRun apiAllOk cfgUnmanaged "T").finalConfig.file.recordID = "newA1" := by
  decide

/-- Every state-store write of a run is either absent or carries the
serialization of the four persisted fields with the A create's ID. -/
theorem saveCalls_mainRun_characterization (api : Provider) (config : Config)
    (now : String) :
    saveCalls (mainRun api config now).trace = [] ∨
    ∃ recID, api.createResA = Except.ok recID ∧
      saveCalls (mainRun api config now).trace =
        [Effect.stateSave (serializeCfgFile
          { domain := config.file.domain, cname := config.file.cname,
            zoneID := config.file.zoneID, recordID := recID })] := by
  by_cases h0 : config.file.recordID = ""
  · by_cases hm : listMatchCount api.records "A" config.file.cname = 0 <;>
      cases hle : api.listErr <;>
      cases ha : api.createResA <;>
      cases hs : api.createResSRV <;>
      simp [mainRun, h0, hm, bne_iff_ne, findRecord, hle, createRecords,
        ha, hs, saveConfig, saveCalls, List.filter, Effect.isSave]
  · left
    have h0' : (config.file.recordID != "") = true := by
      simpa [bne_iff_ne] using h0
    simp [mainRun, h0', updateRecord, saveCalls, List.filter, Effect.isSave]

/-- C8: the state-store write depends only on the four persisted fields
(the write sequence is unchanged under any change of credentials and
resolved IP), and every written payload carries exactly the keys
domain, cname, zone_id, record_id. -/
theorem save_writes_only_persisted_fields (api : Provider) (f : CfgFile)
    (e e' : Env) (now : String) :
    saveCalls (mainRun api { file := f, env := e } now).trace =
      saveCalls (mainRun api { file := f, env := e' } now).trace ∧
    ∀ p, Effect.stateSave p ∈ (mainRun api { file := f, env := e } now).trace →
      p.map Prod.fst = ["domain", "cname", "zone_id", "record_id"] := by
  constructor
  · by_cases h0 : f.recordID = "" <;>
      by_cases hm : listMatchCount api.records "A" f.cname = 0 <;>
      cases hle : api.listErr <;>
      cases ha : api.createResA <;>
      cases hs : api.createResSRV <;>
      simp [mainRun, h0, hm, bne_iff_ne, updateRecord, findRecord, hle,
        createRecords, ha, hs, saveConfig, saveCalls, List.filter,
        Effect.isSave]
  · intro p hp
    have hmem : Effect.stateSave p ∈
        saveCalls (mainRun api { file := f, env := e } now).trace :=
      List.mem_filter.mpr ⟨hp, rfl⟩
    rcases saveCalls_mainRun_characterization api { file := f, env := e } now
      with hnil | ⟨recID, _, hone⟩
    · rw [hnil] at hmem
      exact absurd hmem (List.not_mem_nil _)
    · rw [hone] at hmem
      have : p = serializeCfgFile
          { domain := f.domain, cname := f.cname,
            zoneID := f.zoneID, recordID := recID } := by
        simpa using hmem
      simp [this, serializeCfgFile]

/-- Witness for C8: same write sequence under a fully different env,
and the concrete payload's keys. -/
theorem save_writes_only_persisted_fields_witness :
    saveCalls (mainRun apiAllOk cfgUnmanaged "T").trace =
      saveCalls (mainRun apiAllOk cfgUnmanagedAltEnv "T").trace ∧
    List.map Prod.fst
      [("domain", "example.com"), ("cname", "home"),
       ("zone_id", "z1"), ("record_id", "newA1")] =
      ["domain", "cname", "zone_id", "record_id"] := by
  have h := save_writes_only_persisted_fields apiAllOk cfgUnmanaged.file
    cfgUnmanaged.env envAlt "T"
  exact ⟨h.1, h.2 [("domain", "example.com"), ("cname", "home"),
    ("zone_id", "z1"), ("record_id", "newA1")] (by decide)⟩

/-- C9: the conflict check filters on type "A" and the configured
label: when the zone has no A record under that name (whatever records
of other types exist there), the check reports zero matches, succeeds,
and the A-record create call is issued. -/
theorem conflict_check_type_A_only (api : Provider) (config : Config)
    (now : String) (h0 : config.file.recordID = "")
    (hle : api.listErr = none)
    (hA : ∀ r ∈ api.records, r.name = config.file.cname → r.type ≠ "A") :
    listMatchCount api.records "A" config.file.cname = 0 ∧
    (findRecord api config).2 = Except.ok () ∧
    Effect.createDNSRecord config.file.zoneID (aCreateParams config now) ∈
      (mainRun api config now).trace := by
  have hm : listMatchCount api.records "A" config.file.cname = 0 := by
    rw [listMatchCount, List.length_eq_zero, List.filter_eq_nil_iff]
    intro r hr
    simp only [Bool.and_eq_true, beq_iff_eq, not_and]
    intro ht hn
    exact absurd ht (hA r hr hn)
  have h0' : (config.file.recordID != "") = false := by simp [h0]
  refine ⟨hm, ?_, ?_⟩
  · simp [findRecord, hle, hm]
  · cases ha : api.createResA <;> cases hs : api.createResSRV <;>
      simp [mainRun, h0', findRecord, hle, hm, createRecords, ha, hs,
        saveConfig]

/-- Witness for C9: a zone holding only an SRV record named "home". -/
theorem conflict_check_type_A_only_witness :
    listMatchCount apiSrvOnly.records "A" cfgUnmanaged.file.cname = 0 ∧
    (findRecord apiSrvOnly cfgUnmanaged).2 = Except.ok () ∧
    Effect.createDNSRecord cfgUnmanaged.file.zoneID
      (aCreateParams cfgUnmanaged "T") ∈
      (mainRun apiSrvOnly cfgUnmanaged "T").trace :=
  conflict_check_type_A_only apiSrvOnly cfgUnmanaged "T" (by decide) rfl
    (by decide)

/-- C10: whenever the transport call and the body read succeed, the
resolver returns the raw body with no error, whatever the HTTP status
code is (the status is never consulted). -/
theorem resolve_returns_body_ignoring_status (resp : HttpResponse)
    (h : resp.readErr = none) :
    getPublicIP (Except.ok resp) = (resp.body, none) := by
  simp [getPublicIP, h]

/-- Witness for C10 at a 500-status response. -/
theorem resolve_returns_body_ignoring_status_witness :
    getPublicIP (Except.ok
      { statusCode := 500, body := "203.0.113.7", readErr := none }) =
      ("203.0.113.7", none) :=
  resolve_returns_body_ignoring_status
    { statusCode := 500, body := "203.0.113.7", readErr := none } rfl

end Gddns
